import Mathlib

/-!
Verification development for the audio-generation pipeline of the llm-crl
repository: the submission endpoint (`create-listening-audio` Lambda), the
background worker Lambda, the `resign-listening-url` Lambda, and the client
polling/backoff loop in `RlItemDetail.tsx`.

The definitions below are a shallow embedding of those source files:
database rows become Lean structures, the per-invocation handlers become
pure functions from an explicit database state (plus an environment of
success/failure outcomes for each external call) to the resulting state,
emitted side effects, and HTTP responses.
-/

/-- The sentinel "audio creation in progress" value (`ZERO_UUID` in both
Lambdas). -/
def ZERO_UUID : String := "00000000-0000-0000-0000-000000000000"

/-- The second, dash-free all-zero form the submission endpoint also treats
as non-blocking (`"00000000000000000000000000000000"`). -/
def ZERO_UUID_NODASH : String := "00000000000000000000000000000000"

/-- JavaScript truthiness of a nullable string column value: `null`/absent
and the empty string are falsy, every other string is truthy. -/
def jsTruthyS : Option String → Bool
  | none => false
  | some s => s ≠ ""

/-! ## Client Observer polling loop (`RlItemDetail.tsx`, `pollOnce`) -/

/-- Backoff cap: `MAX_INTERVAL = 120_000` ms in `RlItemDetail.tsx`. -/
def MAX_INTERVAL : Nat := 120000

/-- The mutable loop variables of the polling effect: `pollCount` and
`currentInterval` (ms). -/
structure PollState where
  pollCount : Nat
  currentInterval : Nat
deriving DecidableEq, Repr

/-- The initial loop state: `pollCount = 0`, `currentInterval = 5000`. -/
def pollInit : PollState := ⟨0, 5000⟩

/-- What one poll observes from the `rl_items` row: a store error, or the
current `l_item_id` column value (`none` covering SQL null and a missing
row). -/
inductive PollObs
  | dbError
  | value (l_item_id : Option String)
deriving DecidableEq, Repr

/-- Outcome of one execution of `pollOnce`: the loop resolved (a real
`l_item_id` appeared), stopped because the interval reached the cap, or
scheduled another poll from state `s`. -/
inductive PollNext
  | resolved (uid : String)
  | expired
  | next (s : PollState)
deriving DecidableEq, Repr

/-- The `pollCount++` / doubling-every-5th-poll logic at the bottom of
`pollOnce`: `if (pollCount % 5 === 0) { currentInterval =
Math.min(currentInterval * 2, MAX_INTERVAL); if (currentInterval >=
MAX_INTERVAL) return; } scheduleNext();`. -/
def pollAdvance (s : PollState) : PollNext :=
  let c := s.pollCount + 1
  if c % 5 = 0 then
    let i := min (s.currentInterval * 2) MAX_INTERVAL
    if MAX_INTERVAL ≤ i then .expired else .next ⟨c, i⟩
  else .next ⟨c, s.currentInterval⟩

/-- One execution of `pollOnce` given what the `rl_items` fetch observed.
On a fetch error the code calls `scheduleNext()` without touching
`pollCount` or the interval; on a truthy non-sentinel `l_item_id` it stops
(resolved); otherwise it advances the counter and backoff. -/
def pollOnce (s : PollState) (o : PollObs) : PollNext :=
  match o with
  | .dbError => .next s
  | .value latest =>
    match latest with
    | some uid =>
      if uid ≠ "" ∧ uid ≠ ZERO_UUID then .resolved uid else pollAdvance s
    | none => pollAdvance s

/-- The schedule produced when every poll observes the sentinel: the list
of intervals at which successive polls fire, paired with the final loop
outcome (fuel-bounded; `PollNext.next` as final outcome means the fuel ran
out while the loop was still going). -/
def sentinelSchedule : Nat → PollState → List Nat × PollNext
  | 0, s => ([], .next s)
  | fuel + 1, s =>
    match pollOnce s (.value (some ZERO_UUID)) with
    | .next s2 =>
      let r := sentinelSchedule fuel s2
      (s.currentInterval :: r.1, r.2)
    | out => ([s.currentInterval], out)

/-- C7: the polling interval sequence starts at 5000 ms, is non-decreasing,
stays at or below the 120000 ms cap, changes only on every 5th poll attempt
(where it becomes `min (2·i) cap`), and the loop stops exactly when either
a real non-sentinel id is observed or the doubled interval reaches the
cap. -/
theorem poll_backoff_props (s s2 : PollState) (o : PollObs) (uid : String)
    (hcap : s.currentInterval ≤ MAX_INTERVAL) :
    pollInit.currentInterval = 5000
    ∧ (pollOnce s o = .next s2 →
        s.currentInterval ≤ s2.currentInterval ∧ s2.currentInterval ≤ MAX_INTERVAL)
    ∧ ((s.pollCount + 1) % 5 ≠ 0 → pollOnce s o = .next s2 →
        s2.currentInterval = s.currentInterval)
    ∧ ((s.pollCount + 1) % 5 = 0 → pollOnce s (.value (some ZERO_UUID)) = .next s2 →
        s2.currentInterval = min (s.currentInterval * 2) MAX_INTERVAL)
    ∧ (pollOnce s (.value (some uid)) = .resolved uid ↔ (uid ≠ "" ∧ uid ≠ ZERO_UUID))
    ∧ (pollOnce s (.value (some ZERO_UUID)) = .expired ↔
        ((s.pollCount + 1) % 5 = 0 ∧ MAX_INTERVAL ≤ s.currentInterval * 2)) := by
  refine ⟨rfl, ?_, ?_, ?_, ?_, ?_⟩
  · intro h
    cases o with
    | dbError =>
      simp only [pollOnce] at h
      cases h
      exact ⟨le_refl _, hcap⟩
    | value latest =>
      have adv : ∀ (hadv : pollAdvance s = .next s2),
          s.currentInterval ≤ s2.currentInterval ∧ s2.currentInterval ≤ MAX_INTERVAL := by
        intro hadv
        unfold pollAdvance at hadv
        by_cases h5 : (s.pollCount + 1) % 5 = 0
        · simp only [h5, if_true] at hadv
          by_cases hm : MAX_INTERVAL ≤ min (s.currentInterval * 2) MAX_INTERVAL
          · simp [hm] at hadv
          · simp only [hm, if_false] at hadv
            cases hadv
            constructor
            · exact le_min (by omega) hcap
            · exact min_le_right _ _
        · simp only [h5, if_false] at hadv
          cases hadv
          exact ⟨le_refl _, hcap⟩
      cases latest with
      | none =>
        simp only [pollOnce] at h
        exact adv h
      | some u =>
        simp only [pollOnce] at h
        by_cases hu : u ≠ "" ∧ u ≠ ZERO_UUID
        · simp [hu] at h
        · simp only [hu, if_false] at h
          exact adv h
  · intro h5 h
    have adv : ∀ (hadv : pollAdvance s = .next s2),
        s2.currentInterval = s.currentInterval := by
      intro hadv
      unfold pollAdvance at hadv
      simp only [h5, if_false] at hadv
      cases hadv
      rfl
    cases o with
    | dbError =>
      simp only [pollOnce] at h
      cases h
      rfl
    | value latest =>
      cases latest with
      | none =>
        simp only [pollOnce] at h
        exact adv h
      | some u =>
        simp only [pollOnce] at h
        by_cases hu : u ≠ "" ∧ u ≠ ZERO_UUID
        · simp [hu] at h
        · simp only [hu, if_false] at h
          exact adv h
  · intro h5 h
    simp only [pollOnce, ZERO_UUID] at h
    norm_num at h
    unfold pollAdvance at h
    simp only [h5, if_true] at h
    by_cases hm : MAX_INTERVAL ≤ min (s.currentInterval * 2) MAX_INTERVAL
    · simp [hm] at h
    · simp only [hm, if_false] at h
      cases h
      rfl
  · constructor
    · intro h
      simp only [pollOnce] at h
      by_cases hu : uid ≠ "" ∧ uid ≠ ZERO_UUID
      · exact hu
      · simp only [hu, if_false] at h
        unfold pollAdvance at h
        by_cases h5 : (s.pollCount + 1) % 5 = 0
        · simp only [h5, if_true] at h
          by_cases hm : MAX_INTERVAL ≤ min (s.currentInterval * 2) MAX_INTERVAL
          · simp [hm] at h
          · simp [hm] at h
        · simp [h5] at h
    · intro hu
      simp [pollOnce, hu]
  · constructor
    · intro h
      simp only [pollOnce, ZERO_UUID] at h
      norm_num at h
      unfold pollAdvance at h
      by_cases h5 : (s.pollCount + 1) % 5 = 0
      · simp only [h5, if_true] at h
        by_cases hm : MAX_INTERVAL ≤ min (s.currentInterval * 2) MAX_INTERVAL
        · refine ⟨h5, ?_⟩
          rcases le_or_lt MAX_INTERVAL (s.currentInterval * 2) with hle | hlt
          · exact hle
          · simp [min_eq_left (le_of_lt hlt)] at hm
            omega
        · simp [hm] at h
      · simp [h5] at h
    · intro ⟨h5, hm⟩
      simp only [pollOnce, ZERO_UUID]
      norm_num
      unfold pollAdvance
      simp only [h5, if_true]
      have : min (s.currentInterval * 2) MAX_INTERVAL = MAX_INTERVAL := min_eq_right hm
      simp [this]

/-- Witness for `poll_backoff_props` at a concrete state, observation and
id. -/
theorem poll_backoff_props_witness :
    (pollInit.currentInterval ≤ MAX_INTERVAL)
    ∧ (pollInit.currentInterval = 5000
    ∧ (pollOnce pollInit PollObs.dbError = .next pollInit →
        pollInit.currentInterval ≤ pollInit.currentInterval
          ∧ pollInit.currentInterval ≤ MAX_INTERVAL)
    ∧ ((pollInit.pollCount + 1) % 5 ≠ 0 → pollOnce pollInit PollObs.dbError = .next pollInit →
        pollInit.currentInterval = pollInit.currentInterval)
    ∧ ((pollInit.pollCount + 1) % 5 = 0 →
        pollOnce pollInit (.value (some ZERO_UUID)) = .next pollInit →
        pollInit.currentInterval = min (pollInit.currentInterval * 2) MAX_INTERVAL)
    ∧ (pollOnce pollInit (.value (some "abc")) = .resolved "abc" ↔
        (("abc" : String) ≠ "" ∧ ("abc" : String) ≠ ZERO_UUID))
    ∧ (pollOnce pollInit (.value (some ZERO_UUID)) = .expired ↔
        ((pollInit.pollCount + 1) % 5 = 0 ∧ MAX_INTERVAL ≤ pollInit.currentInterval * 2))) :=
  ⟨by decide, poll_backoff_props pollInit pollInit PollObs.dbError "abc" (by decide)⟩

/-- C10: when the observed `l_item_id` stays at the sentinel, the loop runs
exactly 25 polls — five each at intervals 5000, 10000, 20000, 40000 and
80000 ms — and then stops as expired; no poll is ever scheduled at the
120000 ms cap interval. -/
theorem poll_sentinel_terminates :
    sentinelSchedule 40 pollInit =
      ([5000, 5000, 5000, 5000, 5000,
        10000, 10000, 10000, 10000, 10000,
        20000, 20000, 20000, 20000, 20000,
        40000, 40000, 40000, 40000, 40000,
        80000, 80000, 80000, 80000, 80000], PollNext.expired)
    ∧ (sentinelSchedule 40 pollInit).1.length = 25
    ∧ MAX_INTERVAL ∉ (sentinelSchedule 40 pollInit).1 := by
  refine ⟨by decide, by decide, by decide⟩

/-! ## Audio Job Worker (worker.js, Lambda B) -/

/-- One `l_items` (AudioItem) row, as the worker creates and updates it:
inserted with `{ uid, rl_item_id, is_deleted: false }` and later updated
with `s3_key` and `public_url`. -/
structure LItemRow where
  uid : String
  rl_item_id : Nat
  is_deleted : Bool
  s3_key : Option String
  public_url : Option String
deriving DecidableEq, Repr

/-- The persisted state a single worker invocation touches: the target
`rl_items` row's `l_item_id` column (the ContentItem's `audioRef`), the
`l_items` table, and the caller's `tokens` row (`free`, `paid`). -/
structure WorkerDb where
  rlAudioRef : Option String
  lItems : List LItemRow
  free : Int
  paid : Int
deriving DecidableEq, Repr

/-- A persisted side effect performed by the worker, in program order. -/
inductive WEffect
  | insertLItem (uid : String)
  | setAudioRef (v : Option String)
  | fillLItem (uid s3Key publicUrl : String)
  | setTokens (free paid : Int)
deriving DecidableEq, Repr

/-- Success/failure outcome of each external interaction of one worker
invocation, in program order.  `setSentinelOk`, `fillOk` and `linkOk`
correspond to the three `update` calls whose `error` field the code never
checks: on failure the write simply does not land and execution continues.
`rollbackOk` is the compensating `update({ l_item_id: null })` in the
`catch` block (itself wrapped in a `try`). -/
structure WEnv where
  insertOk : Bool
  setSentinelOk : Bool
  ttsOk : Bool
  uploadOk : Bool
  fillOk : Bool
  linkOk : Bool
  tokensFetchOk : Bool
  tokenUpdateOk : Bool
  rollbackOk : Bool
deriving DecidableEq, Repr

/-- The environment in which every external interaction succeeds. -/
def allOkEnv : WEnv := ⟨true, true, true, true, true, true, true, true, true⟩

/-- The `catch` block: try to reset `rl_items.l_item_id` to null (the write
may itself fail, in which case the column keeps its current value). -/
def workerRollback (env : WEnv) (db : WorkerDb) (tr : List WEffect) :
    WorkerDb × List WEffect :=
  if env.rollbackOk then
    ({ db with rlAudioRef := none }, tr ++ [.setAudioRef none])
  else (db, tr)

/-- The token re-fetch / debit / write-back tail of the worker
(`// token logic ...` onward), starting from the state and trace `p4`
reached after the link step. -/
def workerTokenStep (env : WEnv) (newUid : String) (required : Int)
    (p4 : WorkerDb × List WEffect) : WorkerDb × List WEffect :=
  if env.tokensFetchOk = false then workerRollback env p4.1 p4.2
  else
    let useFromFree := min p4.1.free required
    let remaining := required - useFromFree
    let free2 := p4.1.free - useFromFree
    let paid2 := p4.1.paid - remaining
    if env.tokenUpdateOk = false then workerRollback env p4.1 p4.2
    else ({ p4.1 with free := free2, paid := paid2 }, p4.2 ++ [.setTokens free2 paid2])

/-- The S3-key/url fill, link, and token steps of the worker, starting
from the state reached after a successful upload.  `workerAfterUpload`
and `workerHandler` below together are the handler of worker.js, split at
the two `await` boundaries purely to keep terms small; the combined
program order is exactly that of the source (see `workerHandler`'s doc
comment). -/
def workerAfterUpload (env : WEnv) (newUid : String) (required : Int)
    (uploadUrl : String) (db2 : WorkerDb) (tr2 : List WEffect) :
    WorkerDb × List WEffect :=
  let s3Key := "files/" ++ newUid ++ ".aac"
  let p3 : WorkerDb × List WEffect :=
    if env.fillOk then
      ({ db2 with
          lItems := db2.lItems.map fun r =>
            if r.uid = newUid then
              { r with s3_key := some s3Key, public_url := some uploadUrl }
            else r },
       tr2 ++ [.fillLItem newUid s3Key uploadUrl])
    else (db2, tr2)
  if env.linkOk then
    workerTokenStep env newUid required
      ({ p3.1 with rlAudioRef := some newUid }, p3.2 ++ [.setAudioRef (some newUid)])
  else workerTokenStep env newUid required p3

/-- The worker handler (`exports.handler` of worker.js), as a function of
the external-call outcomes `env`, the freshly generated uuid `newUid`
(`uuidv4()`), the configured token cost `required`
(`parseInt(MIN_TOKENS_REQUIRED)`), the invocation payload
`{ user_id, rl_item_id, r_item }`, the URL `uploadUrl` returned by
`uploadToS3`, and the current database state.  It returns the final state
and the ordered list of persisted side effects that actually landed.
Program order mirrors the source: insert the `l_items` row; set
`rl_items.l_item_id` to `ZERO_UUID` (error ignored); call the TTS gateway;
upload to S3; fill the `l_items` row's `s3_key`/`public_url` (error
ignored); link `rl_items.l_item_id` to `newUid` (error ignored); re-fetch
the tokens row; debit and write it back.  A thrown error at any checked
step jumps to `workerRollback`. -/
def workerHandler (env : WEnv) (newUid : String) (required : Int)
    (user_id : String) (rl_item_id : Nat) (r_item : String)
    (uploadUrl : String) (db : WorkerDb) : WorkerDb × List WEffect :=
  if user_id = "" ∨ rl_item_id = 0 ∨ r_item = "" then (db, [])
  else if env.insertOk = false then workerRollback env db []
  else
    let db1 : WorkerDb :=
      { db with lItems := db.lItems ++ [⟨newUid, rl_item_id, false, none, none⟩] }
    let tr1 : List WEffect := [.insertLItem newUid]
    let p2 : WorkerDb × List WEffect :=
      if env.setSentinelOk then
        ({ db1 with rlAudioRef := some ZERO_UUID },
         tr1 ++ [.setAudioRef (some ZERO_UUID)])
      else (db1, tr1)
    if env.ttsOk = false then workerRollback env p2.1 p2.2
    else if env.uploadOk = false then workerRollback env p2.1 p2.2
    else workerAfterUpload env newUid required uploadUrl p2.1 p2.2

/-- The sequence of values actually written to `rl_items.l_item_id`
(the ContentItem's `audioRef`) during one worker run. -/
def audioRefWrites (tr : List WEffect) : List (Option String) :=
  tr.filterMap fun e =>
    match e with
    | .setAudioRef v => some v
    | _ => none

/-- Whether two nullable column values differ. -/
def optStrNe : Option String → Option String → Bool
  | none, none => false
  | some x, some y => x != y
  | _, _ => true

/-- The value changes along a sequence of writes to a nullable column
starting from `init`: consecutive pairs of (previous value, written
value), keeping only writes that change the value. -/
def valueChanges (init : Option String) (ws : List (Option String)) :
    List (Option String × Option String) :=
  ((init :: ws).zip ws).filter fun p => optStrNe p.1 p.2

/-- The value transitions of `audioRef` during a run starting from `init`. -/
def audioRefChanges (init : Option String) (tr : List WEffect) :
    List (Option String × Option String) :=
  valueChanges init (audioRefWrites tr)

/-- The transition relation the spec text allows for `audioRef`:
`null → sentinel`, `sentinel → realId`, `sentinel → null` and nothing
else.  (Stated from the spec's words, for comparison with the embedded
worker.) -/
def specAllowedTransition : Option String × Option String → Bool
  | (none, some v) => v == ZERO_UUID
  | (some a, some b) => a == ZERO_UUID && b != ZERO_UUID
  | (some a, none) => a == ZERO_UUID
  | (none, none) => false

/-- The transitions the embedded worker can actually perform from an
initially null `audioRef`: additionally `realId → null` (the catch-block
rollback writes null whatever the current value is) and `null → realId`
(when the unchecked sentinel write fails silently). -/
def workerAllowedTransition : Option String × Option String → Bool
  | (none, some _) => true
  | (some a, some b) => a == ZERO_UUID && b != ZERO_UUID
  | (some _, none) => true
  | (none, none) => false

/-- A fresh AudioItem uuid used in concrete runs. -/
def cexUid : String := "11111111-1111-1111-1111-111111111111"

/-- A concrete pre-run database: `audioRef` null, no `l_items` rows,
`free = 3`, `paid = 10`. -/
def cexDb0 : WorkerDb := ⟨none, [], 3, 10⟩

/-- Environment in which only the TTS gateway call fails (e.g. a synthesis
500) and every database interaction succeeds. -/
def envTtsFail : WEnv := ⟨true, true, false, true, true, true, true, true, true⟩

/-- Environment in which only the post-link tokens re-fetch fails. -/
def envTokensFetchFail : WEnv := ⟨true, true, true, true, true, true, false, true, true⟩

/-- The spec's P2 success branch: `audioRef` equals the new AudioItem id,
an `l_items` row with that uid exists, and the token balance dropped by
exactly `required` in total. -/
def c1Success (newUid : String) (required : Int) (db0 db1 : WorkerDb) : Bool :=
  (db1.rlAudioRef == some newUid)
    && db1.lItems.any (fun r => r.uid == newUid)
    && (db1.free + db1.paid == db0.free + db0.paid - required)

/-- The spec's P2 failure branch: `audioRef` back to null, no AudioItem row
created/linked for this ContentItem beyond what was already there, and the
token balance unchanged. -/
def c1Failure (rlId : Nat) (db0 db1 : WorkerDb) : Bool :=
  (db1.rlAudioRef == none)
    && (db1.lItems.filter (fun r => r.rl_item_id == rlId)
          == db0.lItems.filter (fun r => r.rl_item_id == rlId))
    && (db1.free == db0.free) && (db1.paid == db0.paid)

/-- The spec's P2 as stated: exactly one of the two branches holds at
completion.  (Stated from the spec's words, for comparison with the
embedded worker.) -/
def c1ExactlyOne (newUid : String) (required : Int) (rlId : Nat)
    (db0 db1 : WorkerDb) : Bool :=
  xor (c1Success newUid required db0 db1) (c1Failure rlId db0 db1)

/-- C1 counterexample: when the synthesis gateway fails (all database
interactions succeeding), the worker ends with `audioRef = null` and the
balance unchanged, but the `l_items` row it inserted before synthesis is
never removed — so an AudioItem row for this ContentItem exists and
NEITHER of the spec's two exclusive terminal states holds. -/
theorem worker_terminal_states_cex :
    c1ExactlyOne cexUid 7 1 cexDb0
      (workerHandler envTtsFail cexUid 7 "user-1" 1 "text-1" "https://u" cexDb0).1 = false
    ∧ (workerHandler envTtsFail cexUid 7 "user-1" 1 "text-1" "https://u" cexDb0).1.lItems
        = [⟨cexUid, 1, false, none, none⟩] := by
  refine ⟨by decide, by decide⟩

/-- C2 counterexample: when the tokens re-fetch fails after the worker has
already linked `audioRef` to the real new AudioItem id, the catch-block
rollback writes null over the real id — the transition `realId → null`,
which the spec's transition invariant forbids. -/
theorem worker_audioref_transitions_cex :
    ((audioRefChanges none
        (workerHandler envTokensFetchFail cexUid 7 "user-1" 1 "text-1" "https://u" cexDb0).2).all
      specAllowedTransition) = false
    ∧ (some cexUid, (none : Option String)) ∈
        audioRefChanges none
          (workerHandler envTokensFetchFail cexUid 7 "user-1" 1 "text-1" "https://u" cexDb0).2 := by
  refine ⟨by decide, by decide⟩

/-- Effect classifiers used to state effect-ordering claims. -/
def isInsertEffect : WEffect → Bool
  | .insertLItem _ => true
  | _ => false

def isFillEffect : WEffect → Bool
  | .fillLItem _ _ _ => true
  | _ => false

/-- C3 as the spec states it: the sentinel write is the first persisted
side effect of the job, and an AudioItem row is inserted only if the
synthesis call succeeded.  (Stated from the spec's words, for comparison
with the embedded worker.) -/
def c3SpecHolds (env : WEnv) (tr : List WEffect) : Bool :=
  (tr.head? == some (WEffect.setAudioRef (some ZERO_UUID)) || tr.isEmpty)
    && (!(tr.any isInsertEffect) || env.ttsOk)

/-- C3 counterexample: in a run where the synthesis gateway fails (all
database interactions succeeding), the first persisted side effect is the
`l_items` insert — not the sentinel write — and the AudioItem row was
inserted even though synthesis never succeeded. -/
theorem worker_effect_order_cex :
    c3SpecHolds envTtsFail
      (workerHandler envTtsFail cexUid 7 "user-1" 1 "text-1" "https://u" cexDb0).2 = false
    ∧ (workerHandler envTtsFail cexUid 7 "user-1" 1 "text-1" "https://u" cexDb0).2.head?
        = some (WEffect.insertLItem cexUid) := by
  refine ⟨by decide, by decide⟩

/-- C1 amended: provided the job's own database writes all succeed (so the
only possible failures are the synthesis call and the upload), exactly one
of two terminal states holds: on success, `audioRef` equals the new
AudioItem id, an `l_items` row with that uid exists, and the balance
dropped by exactly `required` in total; on failure, `audioRef` is back to
null and the balance is unchanged — but the AudioItem row inserted before
synthesis remains as an orphan. -/
theorem worker_terminal_states (tts upload : Bool) (uid url user rItem : String)
    (required free paid : Int) (rlId : Nat) (ls : List LItemRow) (a0 : Option String)
    (huser : user ≠ "") (hrl : rlId ≠ 0) (hr : rItem ≠ "") :
    (((tts && upload) = true →
        (workerHandler ⟨true, true, tts, upload, true, true, true, true, true⟩
            uid required user rlId rItem url ⟨a0, ls, free, paid⟩).1.rlAudioRef = some uid
        ∧ (∃ r ∈ (workerHandler ⟨true, true, tts, upload, true, true, true, true, true⟩
              uid required user rlId rItem url ⟨a0, ls, free, paid⟩).1.lItems, r.uid = uid)
        ∧ (workerHandler ⟨true, true, tts, upload, true, true, true, true, true⟩
              uid required user rlId rItem url ⟨a0, ls, free, paid⟩).1.free
            + (workerHandler ⟨true, true, tts, upload, true, true, true, true, true⟩
              uid required user rlId rItem url ⟨a0, ls, free, paid⟩).1.paid
            = free + paid - required))
    ∧ ((tts && upload) = false →
        (workerHandler ⟨true, true, tts, upload, true, true, true, true, true⟩
            uid required user rlId rItem url ⟨a0, ls, free, paid⟩).1.rlAudioRef = none
        ∧ (workerHandler ⟨true, true, tts, upload, true, true, true, true, true⟩
            uid required user rlId rItem url ⟨a0, ls, free, paid⟩).1.free = free
        ∧ (workerHandler ⟨true, true, tts, upload, true, true, true, true, true⟩
            uid required user rlId rItem url ⟨a0, ls, free, paid⟩).1.paid = paid
        ∧ (workerHandler ⟨true, true, tts, upload, true, true, true, true, true⟩
            uid required user rlId rItem url ⟨a0, ls, free, paid⟩).1.lItems
          = ls ++ [⟨uid, rlId, false, none, none⟩]) := by
  have hvalid : ¬ (user = "" ∨ rlId = 0 ∨ rItem = "") := by
    push_neg
    exact ⟨huser, hrl, hr⟩
  cases tts with
  | false =>
    refine ⟨by simp, fun _ => ?_⟩
    cases upload <;> simp [workerHandler, workerRollback, hvalid]
  | true =>
    cases upload with
    | false =>
      refine ⟨by simp, fun _ => ?_⟩
      simp [workerHandler, workerRollback, hvalid]
    | true =>
      refine ⟨fun _ => ?_, by simp⟩
      simp [workerHandler, workerAfterUpload, workerTokenStep, workerRollback, hvalid]
      refine ⟨⟨⟨uid, rlId, false, some ("files/" ++ uid ++ ".aac"), some url⟩, ?_, rfl⟩, by omega⟩
      simp


/-- Rewrite rules for `audioRefWrites`, used to keep trace computations
structured. -/
lemma audioRefWrites_nil : audioRefWrites [] = [] := rfl

lemma audioRefWrites_append (a b : List WEffect) :
    audioRefWrites (a ++ b) = audioRefWrites a ++ audioRefWrites b := by
  simp [audioRefWrites]

lemma audioRefWrites_set (v : Option String) (tr : List WEffect) :
    audioRefWrites (.setAudioRef v :: tr) = v :: audioRefWrites tr := rfl

lemma audioRefWrites_insert (u : String) (tr : List WEffect) :
    audioRefWrites (.insertLItem u :: tr) = audioRefWrites tr := rfl

lemma audioRefWrites_fill (u k p : String) (tr : List WEffect) :
    audioRefWrites (.fillLItem u k p :: tr) = audioRefWrites tr := rfl

lemma audioRefWrites_tokens (f p : Int) (tr : List WEffect) :
    audioRefWrites (.setTokens f p :: tr) = audioRefWrites tr := rfl

/-- The `audioRef` writes contributed by the token step: nothing on
success, the rollback null write on failure (when the rollback lands). -/
lemma tokenStep_audioRefWrites (env : WEnv) (uid : String) (required : Int)
    (p : WorkerDb × List WEffect) :
    audioRefWrites (workerTokenStep env uid required p).2 =
      audioRefWrites p.2 ++
        (if env.tokensFetchOk && env.tokenUpdateOk then []
         else if env.rollbackOk then [none] else []) := by
  unfold workerTokenStep workerRollback
  cases htf : env.tokensFetchOk <;> cases htu : env.tokenUpdateOk <;>
    cases hrb : env.rollbackOk <;>
    simp [audioRefWrites_append, audioRefWrites_set, audioRefWrites_tokens,
      audioRefWrites_nil, htf, htu, hrb]

/-- The `audioRef` writes contributed from the fill step onward. -/
lemma afterUpload_audioRefWrites (env : WEnv) (uid : String) (required : Int)
    (url : String) (db2 : WorkerDb) (tr2 : List WEffect) :
    audioRefWrites (workerAfterUpload env uid required url db2 tr2).2 =
      audioRefWrites tr2 ++ (if env.linkOk then [some uid] else []) ++
        (if env.tokensFetchOk && env.tokenUpdateOk then []
         else if env.rollbackOk then [none] else []) := by
  unfold workerAfterUpload
  cases hf : env.fillOk <;> cases hl : env.linkOk <;>
    simp [tokenStep_audioRefWrites, audioRefWrites_append, audioRefWrites_set,
      audioRefWrites_fill, audioRefWrites_nil, hf, hl]

/-- The full `audioRef` write sequence of one worker run (valid inputs,
successful insert). -/
lemma worker_audioRefWrites (env : WEnv) (uid : String) (required : Int)
    (user : String) (rlId : Nat) (rItem url : String) (db : WorkerDb)
    (hvalid : ¬ (user = "" ∨ rlId = 0 ∨ rItem = ""))
    (hins : env.insertOk = true) :
    audioRefWrites (workerHandler env uid required user rlId rItem url db).2 =
      (if env.setSentinelOk then [some ZERO_UUID] else []) ++
        (if env.ttsOk && env.uploadOk then
          (if env.linkOk then [some uid] else []) ++
            (if env.tokensFetchOk && env.tokenUpdateOk then []
             else if env.rollbackOk then [none] else [])
         else (if env.rollbackOk then [none] else [])) := by
  unfold workerHandler workerRollback
  cases hs : env.setSentinelOk <;> cases ht : env.ttsOk <;> cases hu : env.uploadOk <;>
    cases hrb : env.rollbackOk <;>
    simp [afterUpload_audioRefWrites, audioRefWrites_append, audioRefWrites_set,
      audioRefWrites_insert, audioRefWrites_nil, hvalid, hins, hs, ht, hu, hrb]

/-- C2 amended: starting from a null `audioRef`, every `audioRef`
transition the worker performs is one of `null → sentinel`,
`sentinel → realId`, `sentinel → null`, `realId → null` (the failure
rollback writes null regardless of the current value, also after
linking), or `null → realId` (when the unchecked sentinel write fails
silently).  `realId` here is the worker's fresh uuid, which is never the
sentinel. -/
theorem worker_audioref_transitions (env : WEnv) (uid url user rItem : String)
    (required free paid : Int) (rlId : Nat) (ls : List LItemRow)
    (huid : uid ≠ ZERO_UUID) :
    ((audioRefChanges none
        (workerHandler env uid required user rlId rItem url ⟨none, ls, free, paid⟩).2).all
      workerAllowedTransition) = true := by
  have h1 : (uid == ZERO_UUID) = false := by
    simp only [beq_eq_false_iff_ne, ne_eq]
    exact huid
  have h2 : (ZERO_UUID == uid) = false := by
    simp only [beq_eq_false_iff_ne, ne_eq]
    exact Ne.symm huid
  by_cases hvalid : (user = "" ∨ rlId = 0 ∨ rItem = "")
  · simp [workerHandler, hvalid, audioRefChanges, audioRefWrites, valueChanges]
  · by_cases hins : env.insertOk = true
    · unfold audioRefChanges
      rw [worker_audioRefWrites env uid required user rlId rItem url _ hvalid hins]
      cases hs : env.setSentinelOk <;> cases ht : env.ttsOk <;> cases hu : env.uploadOk <;>
        cases hl : env.linkOk <;> cases htf : env.tokensFetchOk <;>
        cases htu : env.tokenUpdateOk <;> cases hrb : env.rollbackOk <;>
        simp [valueChanges, workerAllowedTransition, optStrNe, h1, h2] <;>
        tauto
    · have hins2 : env.insertOk = false := by
        cases h : env.insertOk
        · rfl
        · exact absurd h hins
      cases hrb : env.rollbackOk <;>
        simp [workerHandler, workerRollback, hvalid, hins2, hrb,
          audioRefChanges, audioRefWrites, valueChanges, optStrNe]

/-- C3 amended: in every worker job with valid inputs whose `l_items`
insert succeeds, the insert of the (still empty) AudioItem row is the
FIRST persisted side effect — before the sentinel write, which is second
when it lands, and before synthesis; the storage key and URL are filled
into the AudioItem row only after both the synthesis call and the upload
succeed. -/
theorem worker_effect_order (env : WEnv) (uid url user rItem : String)
    (required : Int) (rlId : Nat) (db : WorkerDb)
    (huser : user ≠ "") (hrl : rlId ≠ 0) (hr : rItem ≠ "")
    (hins : env.insertOk = true) :
    ((workerHandler env uid required user rlId rItem url db).2.head?
        = some (.insertLItem uid))
    ∧ (env.setSentinelOk = true →
        (workerHandler env uid required user rlId rItem url db).2[1]?
          = some (.setAudioRef (some ZERO_UUID)))
    ∧ ((workerHandler env uid required user rlId rItem url db).2.any isFillEffect = true →
        env.ttsOk = true ∧ env.uploadOk = true) := by
  have hvalid : ¬ (user = "" ∨ rlId = 0 ∨ rItem = "") := by
    push_neg
    exact ⟨huser, hrl, hr⟩
  rcases env with ⟨i, s, t, u, f, l, tf, tu, rb⟩
  simp only [] at hins
  subst hins
  cases s <;> cases t <;> cases u <;> cases f <;> cases l <;>
    cases tf <;> cases tu <;> cases rb <;>
    simp [workerHandler, workerAfterUpload, workerTokenStep, workerRollback,
      hvalid, isFillEffect]

/-- C4: the debit step computes `useFromFree = min(free, required)` and
`remaining = required - useFromFree` and writes back `free - useFromFree`
and `paid - remaining`; concretely, `free=3, paid=10, required=7` yields
`free=0, paid=6` and `free=10, paid=10, required=7` yields
`free=3, paid=10`. -/
theorem worker_debit (uid url : String) (free paid required : Int) :
    ((workerHandler allOkEnv uid required "user-1" 1 "text-1" url
          ⟨none, [], free, paid⟩).1.free = free - min free required
      ∧ (workerHandler allOkEnv uid required "user-1" 1 "text-1" url
          ⟨none, [], free, paid⟩).1.paid = paid - (required - min free required))
    ∧ ((workerHandler allOkEnv uid 7 "user-1" 1 "text-1" url
          ⟨none, [], 3, 10⟩).1.free = 0
      ∧ (workerHandler allOkEnv uid 7 "user-1" 1 "text-1" url
          ⟨none, [], 3, 10⟩).1.paid = 6)
    ∧ ((workerHandler allOkEnv uid 7 "user-1" 1 "text-1" url
          ⟨none, [], 10, 10⟩).1.free = 3
      ∧ (workerHandler allOkEnv uid 7 "user-1" 1 "text-1" url
          ⟨none, [], 10, 10⟩).1.paid = 10) := by
  refine ⟨?_, ?_, ?_⟩ <;>
    simp [workerHandler, workerAfterUpload, workerTokenStep, workerRollback, allOkEnv]

/-- Witness for `worker_terminal_states` at the synthesis-failure
instance. -/
theorem worker_terminal_states_witness :
    (("user-1" : String) ≠ "" ∧ (1 : Nat) ≠ 0 ∧ ("text-1" : String) ≠ "")
    ∧ ((false && true) = false →
        (workerHandler ⟨true, true, false, true, true, true, true, true, true⟩
            cexUid 7 "user-1" 1 "text-1" "https://u" ⟨none, [], 3, 10⟩).1.rlAudioRef = none
        ∧ (workerHandler ⟨true, true, false, true, true, true, true, true, true⟩
            cexUid 7 "user-1" 1 "text-1" "https://u" ⟨none, [], 3, 10⟩).1.free = 3
        ∧ (workerHandler ⟨true, true, false, true, true, true, true, true, true⟩
            cexUid 7 "user-1" 1 "text-1" "https://u" ⟨none, [], 3, 10⟩).1.paid = 10
        ∧ (workerHandler ⟨true, true, false, true, true, true, true, true, true⟩
            cexUid 7 "user-1" 1 "text-1" "https://u" ⟨none, [], 3, 10⟩).1.lItems
          = [] ++ [⟨cexUid, 1, false, none, none⟩]) :=
  ⟨⟨by decide, by decide, by decide⟩,
   (worker_terminal_states false true cexUid "https://u" "user-1" "text-1" 7 3 10 1 [] none
      (by decide) (by decide) (by decide)).2⟩

/-- Witness for `worker_audioref_transitions` at the tokens-fetch-failure
instance (where the `realId → null` transition actually occurs). -/
theorem worker_audioref_transitions_witness :
    cexUid ≠ ZERO_UUID
    ∧ ((audioRefChanges none
          (workerHandler envTokensFetchFail cexUid 7 "user-1" 1 "text-1" "https://u"
            ⟨none, [], 3, 10⟩).2).all workerAllowedTransition) = true :=
  ⟨by decide,
   worker_audioref_transitions envTokensFetchFail cexUid "https://u" "user-1" "text-1"
     7 3 10 1 [] (by decide)⟩

/-- Witness for `worker_effect_order` at an all-success instance. -/
theorem worker_effect_order_witness :
    (("user-1" : String) ≠ "" ∧ (1 : Nat) ≠ 0 ∧ ("text-1" : String) ≠ ""
      ∧ allOkEnv.insertOk = true)
    ∧ ((workerHandler allOkEnv cexUid 7 "user-1" 1 "text-1" "https://u" cexDb0).2.head?
        = some (.insertLItem cexUid))
    ∧ (allOkEnv.setSentinelOk = true →
        (workerHandler allOkEnv cexUid 7 "user-1" 1 "text-1" "https://u" cexDb0).2[1]?
          = some (.setAudioRef (some ZERO_UUID)))
    ∧ ((workerHandler allOkEnv cexUid 7 "user-1" 1 "text-1" "https://u" cexDb0).2.any
          isFillEffect = true →
        allOkEnv.ttsOk = true ∧ allOkEnv.uploadOk = true) :=
  ⟨⟨by decide, by decide, by decide, by decide⟩,
   worker_effect_order allOkEnv cexUid "https://u" "user-1" "text-1" 7 1 cexDb0
     (by decide) (by decide) (by decide) (by decide)⟩

/-! ## Audio Job Submission Endpoint (create-listening-audio Lambda) -/

/-- The columns of an `rl_items` row the submission endpoint selects
(`id, l_item_id, r_item`). -/
structure SubRlRow where
  id : Nat
  l_item_id : Option String
  r_item : String
deriving DecidableEq, Repr

/-- The columns of a `tokens` row the endpoint selects
(`user_id, free, paid`); the numeric columns are nullable, read through
`|| 0`. -/
structure SubTokenRow where
  user_id : String
  free : Option Int
  paid : Option Int
deriving DecidableEq, Repr

/-- The persisted state visible to the submission endpoint. -/
structure SubmitDb where
  rlItems : List SubRlRow
  tokens : List SubTokenRow
deriving DecidableEq, Repr

/-- Result of verifying the caller's jwt: signature invalid, or valid with
the decoded subject (`decoded.sub || decoded.user_id`, possibly absent). -/
inductive Cred
  | invalid
  | valid (user_id : Option String)
deriving DecidableEq, Repr

/-- An HTTP response of the submission endpoint: status code and the
`error` field of the JSON body (absent on 200). -/
structure HttpResp where
  statusCode : Nat
  error : Option String
deriving DecidableEq, Repr

/-- The payload of the asynchronous worker invocation. -/
structure WorkerPayload where
  user_id : String
  rl_item_id : Nat
  r_item : String
deriving DecidableEq, Repr

/-- Success/failure of the endpoint's two store reads (a `.single()` fetch
also errors when the row is absent, which the model renders as `find?`
returning `none` under a successful fetch). -/
structure SubmitEnv where
  rlFetchOk : Bool
  tokensFetchOk : Bool
deriving DecidableEq, Repr

/-- The submission endpoint handler (`exports.handler` of the
create-listening-audio Lambda), from the JWT-verification step onward
(CORS preflight handling and the missing-body/missing-field 400 replies
precede this and involve no store access).  Returns the HTTP response,
the worker payload when the job is dispatched, and the (unchanged — the
endpoint performs no writes) database state. -/
def submitHandler (env : SubmitEnv) (required : Int) (cred : Cred)
    (rl_item_id : Nat) (db : SubmitDb) :
    HttpResp × Option WorkerPayload × SubmitDb :=
  match cred with
  | .invalid => (⟨401, some "Invalid token"⟩, none, db)
  | .valid none => (⟨401, some "Invalid token payload"⟩, none, db)
  | .valid (some user_id) =>
    match (if env.rlFetchOk then db.rlItems.find? (fun r => r.id == rl_item_id) else none) with
    | none => (⟨500, some "DB error fetching rl_item"⟩, none, db)
    | some row =>
      if jsTruthyS row.l_item_id = true ∧ row.l_item_id ≠ some ZERO_UUID
          ∧ row.l_item_id ≠ some ZERO_UUID_NODASH then
        (⟨409, some "l_item already exists"⟩, none, db)
      else if row.l_item_id = some ZERO_UUID then
        (⟨409, some "audio creation already in progress"⟩, none, db)
      else
        match (if env.tokensFetchOk then db.tokens.find? (fun t => t.user_id == user_id)
               else none) with
        | none => (⟨500, some "DB error fetching tokens"⟩, none, db)
        | some trow =>
          if trow.free.getD 0 + trow.paid.getD 0 < required then
            (⟨402, some "Insufficient tokens"⟩, none, db)
          else
            (⟨200, none⟩, some ⟨user_id, rl_item_id, row.r_item⟩, db)

/-- C5: with a valid credential and the item found, a sentinel `audioRef`
draws `409 "audio creation already in progress"` and a real (truthy,
non-sentinel, non-dash-free-zero) `audioRef` draws
`409 "l_item already exists"`; in both cases no worker is dispatched and
no state is written. -/
theorem submit_conflict (env : SubmitEnv) (required : Int) (u : String)
    (id : Nat) (db : SubmitDb) (row : SubRlRow)
    (henv : env.rlFetchOk = true)
    (hrow : db.rlItems.find? (fun r => r.id == id) = some row) :
    (row.l_item_id = some ZERO_UUID →
      submitHandler env required (.valid (some u)) id db
        = (⟨409, some "audio creation already in progress"⟩, none, db))
    ∧ (∀ s : String, row.l_item_id = some s → s ≠ "" → s ≠ ZERO_UUID →
        s ≠ ZERO_UUID_NODASH →
      submitHandler env required (.valid (some u)) id db
        = (⟨409, some "l_item already exists"⟩, none, db)) := by
  constructor
  · intro h
    simp [submitHandler, henv, hrow, h, jsTruthyS]
  · intro s hs h1 h2 h3
    simp [submitHandler, henv, hrow, hs, jsTruthyS, h1, h2, h3]

/-- Witness for `submit_conflict` at a concrete sentinel-valued row. -/
theorem submit_conflict_witness :
    ((⟨true, true⟩ : SubmitEnv).rlFetchOk = true
      ∧ (SubmitDb.mk [⟨42, some ZERO_UUID, "text-1"⟩] []).rlItems.find?
          (fun r => r.id == 42) = some ⟨42, some ZERO_UUID, "text-1"⟩)
    ∧ submitHandler ⟨true, true⟩ 7 (.valid (some "user-1")) 42
        ⟨[⟨42, some ZERO_UUID, "text-1"⟩], []⟩
      = (⟨409, some "audio creation already in progress"⟩, none,
          ⟨[⟨42, some ZERO_UUID, "text-1"⟩], []⟩) :=
  ⟨⟨by decide, by decide⟩,
   (submit_conflict ⟨true, true⟩ 7 "user-1" 42 ⟨[⟨42, some ZERO_UUID, "text-1"⟩], []⟩
      ⟨42, some ZERO_UUID, "text-1"⟩ (by decide) (by decide)).1 rfl⟩

/-- C6: with a valid credential, the item found with null `audioRef`, and
`free + paid < required`, the endpoint replies
`402 "Insufficient tokens"`, dispatches no worker, and mutates no state
(the returned store state is the input state). -/
theorem submit_payment_required (required : Int) (u : String) (id : Nat)
    (db : SubmitDb) (row : SubRlRow) (trow : SubTokenRow)
    (hrow : db.rlItems.find? (fun r => r.id == id) = some row)
    (hnull : row.l_item_id = none)
    (htok : db.tokens.find? (fun t => t.user_id == u) = some trow)
    (hlow : trow.free.getD 0 + trow.paid.getD 0 < required) :
    submitHandler ⟨true, true⟩ required (.valid (some u)) id db
      = (⟨402, some "Insufficient tokens"⟩, none, db) := by
  simp [submitHandler, hrow, hnull, htok, hlow, jsTruthyS]

/-- Witness for `submit_payment_required`: Scenario A
(`free=1, paid=1, required=7`). -/
theorem submit_payment_required_witness :
    ((SubmitDb.mk [⟨42, none, "text-1"⟩] [⟨"user-1", some 1, some 1⟩]).rlItems.find?
        (fun r => r.id == 42) = some ⟨42, none, "text-1"⟩
      ∧ (SubmitDb.mk [⟨42, none, "text-1"⟩] [⟨"user-1", some 1, some 1⟩]).tokens.find?
          (fun t => t.user_id == "user-1") = some ⟨"user-1", some 1, some 1⟩
      ∧ (some (1 : Int)).getD 0 + (some (1 : Int)).getD 0 < 7)
    ∧ submitHandler ⟨true, true⟩ 7 (.valid (some "user-1")) 42
        ⟨[⟨42, none, "text-1"⟩], [⟨"user-1", some 1, some 1⟩]⟩
      = (⟨402, some "Insufficient tokens"⟩, none,
          ⟨[⟨42, none, "text-1"⟩], [⟨"user-1", some 1, some 1⟩]⟩) :=
  ⟨⟨by decide, by decide, by decide⟩,
   submit_payment_required 7 "user-1" 42
     ⟨[⟨42, none, "text-1"⟩], [⟨"user-1", some 1, some 1⟩]⟩
     ⟨42, none, "text-1"⟩ ⟨"user-1", some 1, some 1⟩
     (by decide) rfl (by decide) (by decide)⟩

/-- C9: with a valid credential but no matching `rl_items` row, the
`.single()` fetch reports an error, so the endpoint replies
`500 "DB error fetching rl_item"` — not 404. -/
theorem submit_missing_item (env : SubmitEnv) (required : Int) (u : String)
    (id : Nat) (db : SubmitDb)
    (henv : env.rlFetchOk = true)
    (habs : db.rlItems.find? (fun r => r.id == id) = none) :
    submitHandler env required (.valid (some u)) id db
      = (⟨500, some "DB error fetching rl_item"⟩, none, db)
    ∧ (submitHandler env required (.valid (some u)) id db).1.statusCode ≠ 404 := by
  have h : submitHandler env required (.valid (some u)) id db
      = (⟨500, some "DB error fetching rl_item"⟩, none, db) := by
    simp [submitHandler, henv, habs]
  refine ⟨h, ?_⟩
  rw [h]
  simp

/-- Witness for `submit_missing_item` on an empty store. -/
theorem submit_missing_item_witness :
    ((⟨true, true⟩ : SubmitEnv).rlFetchOk = true
      ∧ (SubmitDb.mk [] []).rlItems.find? (fun r => r.id == 42) = none)
    ∧ submitHandler ⟨true, true⟩ 7 (.valid (some "user-1")) 42 ⟨[], []⟩
        = (⟨500, some "DB error fetching rl_item"⟩, none, ⟨[], []⟩)
    ∧ (submitHandler ⟨true, true⟩ 7 (.valid (some "user-1")) 42 ⟨[], []⟩).1.statusCode ≠ 404 :=
  ⟨⟨by decide, by decide⟩,
   submit_missing_item ⟨true, true⟩ 7 "user-1" 42 ⟨[], []⟩ (by decide) (by decide)⟩

/-! ## Signed URL Refresh Endpoint (resign-listening-url Lambda) -/

/-- The columns of an `l_items` row the refresh endpoint selects
(`uid, s3_key, public_url, is_deleted`). -/
structure ResignRow where
  uid : String
  s3_key : Option String
  public_url : Option String
  is_deleted : Bool
deriving DecidableEq, Repr

/-- A response of the refresh endpoint: status code and the JSON body's
`ok`, `public_url` and `error` fields. -/
structure ResignResp where
  statusCode : Nat
  ok : Bool
  public_url : Option String
  error : Option String
deriving DecidableEq, Repr

/-- The refresh endpoint handler (`exports.handler` of
resign-listening-url), from the JWT-verification step onward (CORS
preflight and the missing-body/missing-field 400 replies precede this and
involve no store access).  `fetchOk` is the success of the `maybeSingle`
store read (`false` renders the 500 path); `usePublicAcl` is the
`USE_PUBLIC_ACL === "true"` configuration; `sign` is
`s3.getSignedUrl("getObject", ...)` on the row's storage key with the
configured bucket and expiry. -/
def resignHandler (fetchOk : Bool) (usePublicAcl : Bool) (sign : String → String)
    (cred : Cred) (l_item_uid : String) (rows : List ResignRow) : ResignResp :=
  match cred with
  | .invalid => ⟨401, false, none, some "Invalid token"⟩
  | .valid none => ⟨401, false, none, some "Invalid token payload"⟩
  | .valid (some _) =>
    if fetchOk = false then ⟨500, false, none, some "DB error fetching l_item"⟩
    else
      match rows.find? (fun r => r.uid == l_item_uid) with
      | none => ⟨404, false, none, some "l_item not found"⟩
      | some r =>
        if r.is_deleted = true then ⟨410, false, none, some "l_item is deleted"⟩
        else if usePublicAcl = true ∧ jsTruthyS r.public_url = true then
          ⟨200, true, r.public_url, none⟩
        else if jsTruthyS r.s3_key = false then
          if jsTruthyS r.public_url = true then ⟨200, true, r.public_url, none⟩
          else ⟨400, false, none, some "No s3_key for l_item"⟩
        else ⟨200, true, some (sign (r.s3_key.getD "")), none⟩

/-- C8: with a valid credential and a successful store read, the refresh
endpoint replies 404 when no row matches, 410 when the row is
soft-deleted, 200 with the recorded public URL when the store is public
and one is recorded, 200 with the recorded public URL as a fallback
whenever no storage key exists but a public URL does, 400 when neither a
storage key nor a public URL is available, and otherwise 200 with a
freshly signed URL for the storage key. -/
theorem resign_branches (pub : Bool) (sign : String → String) (u uidq : String)
    (rows : List ResignRow) :
    (rows.find? (fun r => r.uid == uidq) = none →
      resignHandler true pub sign (.valid (some u)) uidq rows
        = ⟨404, false, none, some "l_item not found"⟩)
    ∧ (∀ r : ResignRow, rows.find? (fun r2 => r2.uid == uidq) = some r →
        r.is_deleted = true →
      resignHandler true pub sign (.valid (some u)) uidq rows
        = ⟨410, false, none, some "l_item is deleted"⟩)
    ∧ (∀ r : ResignRow, rows.find? (fun r2 => r2.uid == uidq) = some r →
        r.is_deleted = false → pub = true → jsTruthyS r.public_url = true →
      resignHandler true pub sign (.valid (some u)) uidq rows
        = ⟨200, true, r.public_url, none⟩)
    ∧ (∀ r : ResignRow, rows.find? (fun r2 => r2.uid == uidq) = some r →
        r.is_deleted = false → jsTruthyS r.s3_key = false →
        jsTruthyS r.public_url = true →
      resignHandler true pub sign (.valid (some u)) uidq rows
        = ⟨200, true, r.public_url, none⟩)
    ∧ (∀ r : ResignRow, rows.find? (fun r2 => r2.uid == uidq) = some r →
        r.is_deleted = false → jsTruthyS r.s3_key = false →
        jsTruthyS r.public_url = false →
      resignHandler true pub sign (.valid (some u)) uidq rows
        = ⟨400, false, none, some "No s3_key for l_item"⟩)
    ∧ (∀ r : ResignRow, rows.find? (fun r2 => r2.uid == uidq) = some r →
        r.is_deleted = false → jsTruthyS r.s3_key = true →
        ¬ (pub = true ∧ jsTruthyS r.public_url = true) →
      resignHandler true pub sign (.valid (some u)) uidq rows
        = ⟨200, true, some (sign (r.s3_key.getD "")), none⟩) := by
  refine ⟨?_, ?_, ?_, ?_, ?_, ?_⟩
  · intro habs
    simp [resignHandler, habs]
  · intro r hr hdel
    simp [resignHandler, hr, hdel]
  · intro r hr hdel hpub hurl
    simp [resignHandler, hr, hdel, hpub, hurl]
  · intro r hr hdel hkey hurl
    cases pub with
    | false => simp [resignHandler, hr, hdel, hkey, hurl]
    | true => simp [resignHandler, hr, hdel, hkey, hurl]
  · intro r hr hdel hkey hurl
    simp [resignHandler, hr, hdel, hkey, hurl]
  · intro r hr hdel hkey hnot
    simp [resignHandler, hr, hdel, hkey, hnot]

/-- Witness for `resign_branches` on an empty store (404 branch). -/
theorem resign_branches_witness :
    (List.find? (fun r => r.uid == "u1") ([] : List ResignRow) = none)
    ∧ resignHandler true false (fun k => k) (.valid (some "user-1")) "u1" []
        = ⟨404, false, none, some "l_item not found"⟩ :=
  ⟨by decide,
   (resign_branches false (fun k => k) "user-1" "u1" []).1 (by decide)⟩
